import Mathlib

/-!
Verification development for the ChatBotAI repository: a multi-tenant
knowledge-base build pipeline (crawl, chunk, embed, index) with per-tenant
vector namespaces and a retrieval-augmented chat path.

The first part embeds the frontend code found under
`frontend/src/components/AIStatusCard.tsx` and `frontend/src/lib/errorUtils.ts`.
The second part models the backend build orchestrator, indexer and retrieval
service; the backend python sources (`app/ai_routes.py`, `app/rag_service.py`,
`app/scraper.py`, `app/llm_service.py`) are not present in the repository
snapshot, only their phase summaries and frontend callers, so those
definitions are modelled from the specification and are marked as such.
-/

/-! ## Frontend: AIStatusCard.tsx -/

/-- The `AIStatus` payload received by `AIStatusCard` (interface `AIStatus` in
`AIStatusCard.tsx`).  Optional fields are `Option`s; `ai_build_status` is one of
the strings `not_started`, `building`, `ready`, `failed` when present. -/
structure AIStatus where
  company_id : Nat
  ai_enabled : Bool
  ai_build_status : Option String
  collection_name : Option String
  last_scraped_at : Option String
  document_count : Nat
  error_message : Option String
deriving Repr, DecidableEq

/-- Helper for the frontend guards: `aiStatus?.ai_build_status === v`
(`undefined === v` is `false` for the string constants used). -/
def statusIs (os : Option AIStatus) (v : String) : Bool :=
  match os with
  | none => false
  | some st => st.ai_build_status == some v

/-- `canBuildAI` from `AIStatusCard.tsx` line 127:
`!aiBuilding && (!aiStatus || aiStatus.ai_build_status !== 'building' && aiStatus.ai_build_status !== 'ready')`. -/
def canBuildAI (os : Option AIStatus) (aiBuilding : Bool) : Bool :=
  !aiBuilding && (os.isNone || (!(statusIs os "building") && !(statusIs os "ready")))

/-- `canScrapeWebsite` from `AIStatusCard.tsx` line 128:
`aiStatus?.ai_build_status === 'ready' && !aiBuilding`. -/
def canScrapeWebsite (os : Option AIStatus) (aiBuilding : Bool) : Bool :=
  statusIs os "ready" && !aiBuilding

/-- `canDisableAI` from `AIStatusCard.tsx` line 129:
`aiStatus?.ai_enabled && aiStatus?.ai_build_status === 'ready'`. -/
def canDisableAI (os : Option AIStatus) : Bool :=
  (match os with | none => false | some st => st.ai_enabled) && statusIs os "ready"

/-- `canChatWithAI` from `AIStatusCard.tsx` line 130:
`aiStatus?.ai_build_status === 'ready'`. -/
def canChatWithAI (os : Option AIStatus) : Bool :=
  statusIs os "ready"

/-- `getStatusDescription` from `AIStatusCard.tsx` lines 110-125.  The failed
branch renders `${aiStatus.error_message || 'Unknown error'}`: an absent or
empty (falsy) message becomes `Unknown error`. -/
def getStatusDescription (os : Option AIStatus) : String :=
  match os with
  | none => "AI has not been built for this company yet."
  | some st =>
    match st.ai_build_status with
    | some "not_started" =>
        "AI has not been built for this company yet. Click \"Build AI\" to get started."
    | some "building" => "AI is currently being built. This may take a few minutes..."
    | some "ready" =>
        "AI is ready and has " ++ toString st.document_count ++
          " documents in its knowledge base."
    | some "failed" =>
        "AI build failed: " ++
          (match st.error_message with
           | some m => if m = "" then "Unknown error" else m
           | none => "Unknown error")
    | _ => "AI status is unknown."

/-! ## Frontend: errorUtils.ts

`formatApiError` receives an arbitrary JavaScript value (typed `any`), so we
embed a small model of JavaScript runtime values together with the pieces of
semantics the function uses: property access (which throws a `TypeError` on
`null`/`undefined` receivers), optional chaining, truthiness, `Array.isArray`,
`typeof x === 'string'`, `Array.prototype.map` over `err => err.msg`, and
`Array.prototype.join(', ')`. -/

/-- Model of a JavaScript runtime value. -/
inductive JSValue where
  | vnull
  | vundefined
  | vbool (b : Bool)
  | vnum (n : Int)
  | vstr (s : String)
  | varr (xs : List JSValue)
  | vobj (fields : List (String × JSValue))
deriving Repr

/-- The only JavaScript error `formatApiError` can raise: a `TypeError` from
reading a property of `null` or `undefined`. -/
inductive JSError where
  | typeError
deriving Repr, DecidableEq

/-- Own-property lookup on an object's field list. -/
def getOwn (fields : List (String × JSValue)) (k : String) : Option JSValue :=
  match fields with
  | [] => none
  | (k', v) :: rest => if k' = k then some v else getOwn rest k

/-- Property access `v.k`: throws `TypeError` on `null`/`undefined`, yields the
field on objects, and `undefined` on primitives (no own properties modelled). -/
def member (v : JSValue) (k : String) : Except JSError JSValue :=
  match v with
  | .vnull => .error .typeError
  | .vundefined => .error .typeError
  | .vobj fields => .ok ((getOwn fields k).getD .vundefined)
  | _ => .ok .vundefined

/-- Optional-chained access `v?.k`: `undefined` instead of a `TypeError` when
the receiver is `null`/`undefined`. -/
def optMember (v : JSValue) (k : String) : JSValue :=
  match v with
  | .vnull => .vundefined
  | .vundefined => .vundefined
  | .vobj fields => (getOwn fields k).getD .vundefined
  | _ => .vundefined

/-- JavaScript truthiness. -/
def truthy : JSValue → Bool
  | .vnull => false
  | .vundefined => false
  | .vbool b => b
  | .vnum n => n != 0
  | .vstr s => s != ""
  | .varr _ => true
  | .vobj _ => true

/-- `Array.isArray`. -/
def isArray : JSValue → Bool
  | .varr _ => true
  | _ => false

/-- `typeof v === 'string'`. -/
def isString : JSValue → Bool
  | .vstr _ => true
  | _ => false

/-- The element list of an array value (only used under an `isArray` guard). -/
def asArray : JSValue → List JSValue
  | .varr xs => xs
  | _ => []

mutual
/-- JavaScript `String(v)` conversion as used by `Array.prototype.join`. -/
def jsToString : JSValue → String
  | .vnull => "null"
  | .vundefined => "undefined"
  | .vbool b => if b then "true" else "false"
  | .vnum n => toString n
  | .vstr s => s
  | .varr xs => String.intercalate "," (jsJoinElems xs)
  | .vobj _ => "[object Object]"

/-- Element conversion for `join`: `null` and `undefined` become the empty
string, everything else goes through `String(v)`. -/
def jsJoinElems : List JSValue → List String
  | [] => []
  | .vnull :: xs => "" :: jsJoinElems xs
  | .vundefined :: xs => "" :: jsJoinElems xs
  | x :: xs => jsToString x :: jsJoinElems xs
end

/-- `Array.prototype.join(sep)`. -/
def jsJoin (sep : String) (xs : List JSValue) : String :=
  String.intercalate sep (jsJoinElems xs)

/-- `detail.map((err) => err.msg)`: the property read throws a `TypeError`
when an element is `null`/`undefined`. -/
def mapMsg : List JSValue → Except JSError (List JSValue)
  | [] => .ok []
  | e :: es =>
    match member e "msg" with
    | .error err => .error err
    | .ok m =>
      match mapMsg es with
      | .error err => .error err
      | .ok ms => .ok (m :: ms)

/-- The fixed fallback message of `formatApiError`. -/
def unexpectedErrorMsg : String := "An unexpected error occurred. Please try again."

/-- Code following the `if (error.response?.data) { ... }` block in
`formatApiError`: `if (error.message) return error.message;` then the fixed
fallback string. -/
def formatApiErrorTail (error : JSValue) : Except JSError JSValue :=
  match member error "message" with
  | .error e => .error e
  | .ok msg => if truthy msg then .ok msg else .ok (.vstr unexpectedErrorMsg)

/-- `formatApiError` from `frontend/src/lib/errorUtils.ts`.  The TypeScript
return type is `string`, but at runtime the `error.message` branch returns the
message value unchanged, so the model returns a `JSValue`; the `console.error`
call is ignored. -/
def formatApiError (error : JSValue) : Except JSError JSValue :=
  match member error "response" with
  | .error e => .error e
  | .ok resp =>
    let data := optMember resp "data"
    if truthy data then
      match member data "detail" with
      | .error e => .error e
      | .ok detail =>
        if truthy detail && isArray detail then
          match mapMsg (asArray detail) with
          | .error e => .error e
          | .ok msgs => .ok (.vstr (jsJoin ", " msgs))
        else if truthy detail && isString detail then
          .ok detail
        else if isString data then
          .ok data
        else
          formatApiErrorTail error
    else
      formatApiErrorTail error

/-- Input with shape `\x7b response: \x7b data: d \x7d \x7d`. -/
def mkRespData (d : JSValue) : JSValue :=
  .vobj [("response", .vobj [("data", d)])]

/-- Input with shape `\x7b response: \x7b data: \x7b detail: d \x7d \x7d \x7d`. -/
def mkDetail (d : JSValue) : JSValue :=
  mkRespData (.vobj [("detail", d)])

/-! ## Backend core, modelled from the specification

The backend modules `app/ai_routes.py`, `app/rag_service.py`, `app/scraper.py`
and `app/llm_service.py` are not part of the repository snapshot (only the
phase summaries `PHASE1_SUMMARY.md` / phase-2 summary and the frontend callers
are), so the build orchestrator, indexer, retrieval service and chat service
are modelled from the specification, section by section. -/

/-- Modelled from the spec (section 3, data model): the tenant build status
enum `not_started, building, ready, failed` (`ai_build_status` in
`PHASE1_SUMMARY.md`). -/
inductive BuildStatus where
  | not_started
  | building
  | ready
  | failed
deriving Repr, DecidableEq

/-- Modelled from the spec (section 3): the `step` field of `BuildProgress`. -/
inductive ProgressStep where
  | crawling
  | chunking
  | embedding
  | finalizing
deriving Repr, DecidableEq

/-- Modelled from the spec (section 3): the ephemeral `BuildProgress` record. -/
structure BuildProgress where
  step : ProgressStep
  current_url : Option String
  urls_total : Nat
  urls_done : Nat
  chunks_processed : Nat
  documents_added : Nat
  updated_at : Nat
deriving Repr, DecidableEq

/-- Modelled from the spec (section 3): the per-tenant build state.  The
`cancel_requested` flag carries the cooperative cancellation request of
section 5. -/
structure TenantState where
  ai_enabled : Bool
  build_status : BuildStatus
  last_scraped_at : Option Nat
  error_message : Option String
  document_count : Nat
  progress : Option BuildProgress
  cancel_requested : Bool
deriving Repr, DecidableEq

/-- The initial (fresh) tenant state. -/
def initialTenantState : TenantState :=
  { ai_enabled := false
    build_status := .not_started
    last_scraped_at := none
    error_message := none
    document_count := 0
    progress := none
    cancel_requested := false }

/-- Modelled from the spec (section 3): a chunk produced by the chunker and
consumed by the indexer. -/
structure Chunk where
  text : String
  source_url : String
  header_path : List String
  word_count : Nat
  chunk_index : Nat
deriving Repr, DecidableEq

/-- An indexed entry of a vector namespace: the chunk plus the namespace id it
was upserted into (namespaces are keyed by tenant id). -/
structure Entry where
  ns : Nat
  chunk : Chunk
deriving Repr, DecidableEq

/-- Modelled from the spec (section 6): the tenant record consumed from the
company-management store (seed URLs; `website_urls` of the company). -/
structure TenantRecord where
  seed_urls : List String
deriving Repr, DecidableEq

/-- The global system state: tenant records, per-tenant build state, the
per-tenant vector namespaces, and the multiset of tenant ids owned by an
active background build task. -/
structure Sys where
  tenants : Nat → Option TenantRecord
  states : Nat → TenantState
  store : Nat → List Entry
  activeBuilds : List Nat

/-- The empty system: no tenants, fresh states, empty namespaces, no tasks. -/
def initSys : Sys :=
  { tenants := fun _ => none
    states := fun _ => initialTenantState
    store := fun _ => []
    activeBuilds := [] }

/-- Occurrence count of a tenant id in a task list. -/
def countNat (a : Nat) : List Nat → Nat
  | [] => 0
  | b :: l => (if b = a then 1 else 0) + countNat a l

/-- Remove one occurrence of a tenant id from a task list. -/
def removeOne (a : Nat) : List Nat → List Nat
  | [] => []
  | b :: l => if b = a then l else b :: removeOne a l

/-- Modelled from the spec (section 4.5): the requests that may be made of the
status state machine. -/
inductive BuildRequest where
  | trigger
  | rescrape
  | finishOk
  | finishFail
deriving Repr, DecidableEq

/-- Modelled from the spec (section 4.5): the status transition function.
`none` means the request is rejected.  `not_started -> building` and
`failed -> building` (retry) by trigger, `ready -> building` by re-scrape,
`building -> ready / failed` by the build task finishing. -/
def stepStatus : BuildStatus → BuildRequest → Option BuildStatus
  | .not_started, .trigger => some .building
  | .failed, .trigger => some .building
  | .ready, .rescrape => some .building
  | .building, .finishOk => some .ready
  | .building, .finishFail => some .failed
  | _, _ => none

/-- Modelled from the spec (section 7, error taxonomy (3) and section 5): the
fatal failure kinds of a build. -/
inductive FailureKind where
  | embeddingRetriesExhausted
  | namespaceWriteFailure
  | cancelled
  | buildTimeout
deriving Repr, DecidableEq

/-- Modelled from the spec (section 4.5): the short, user-safe description
stored in `error_message` on a fatal failure. -/
def describeFailure : FailureKind → String
  | .embeddingRetriesExhausted => "Embedding service failed repeatedly; the build was stopped."
  | .namespaceWriteFailure => "Could not write to the knowledge-base index."
  | .cancelled => "The build was cancelled."
  | .buildTimeout => "The build took too long and was stopped."

/-- Synchronous rejection reasons of a trigger call (spec section 7, error
taxonomy (4), plus invalid state-machine transitions). -/
inductive TriggerError where
  | tenantNotFound
  | noSeedUrls
  | invalidTransition
deriving Repr, DecidableEq

/-! ### Retrieval, modelled from the spec (section 4.6) -/

/-- Modelled from the spec: a deterministic stand-in for the embedding model
(the spec fixes one embedding model for both indexing and querying; only
determinism and sameness of the model matter here). -/
def embed (text : String) : List Nat :=
  text.toList.map Char.toNat

/-- Dot product over the common prefix of two vectors. -/
def dotNat : List Nat → List Nat → Nat
  | a :: as, b :: bs => a * b + dotNat as bs
  | _, _ => 0

/-- A retrieval candidate: `((score, position), entry)`. -/
abbrev Ranked := (Nat × Nat) × Entry

/-- Modelled from the spec: rank order for retrieval — higher similarity score
first, index order as the deterministic tie-break (section 9, open question,
resolved as the spec suggests). -/
def rankLE (a b : Ranked) : Bool :=
  decide (b.1.1 < a.1.1 ∨ (a.1.1 = b.1.1 ∧ a.1.2 ≤ b.1.2))

/-- Insertion step of the retrieval sort. -/
def insertRanked (x : Ranked) : List Ranked → List Ranked
  | [] => [x]
  | y :: ys => if rankLE x y then x :: y :: ys else y :: insertRanked x ys

/-- Insertion sort by `rankLE`. -/
def sortRanked : List Ranked → List Ranked
  | [] => []
  | x :: xs => insertRanked x (sortRanked xs)

/-- Score every entry of a namespace against a question embedding, recording
its position for the tie-break. -/
def rankEntries (qv : List Nat) : List Entry → Nat → List Ranked
  | [], _ => []
  | e :: es, i => ((dotNat qv (embed e.chunk.text), i), e) :: rankEntries qv es (i + 1)

/-- Modelled from the spec (section 4.6): retrieval — embed the question with
the indexing model, score the namespace entries, order by score with index
tie-break, take `top_k`. -/
def retrieve (es : List Entry) (q : String) (k : Nat) : List Entry :=
  ((sortRanked (rankEntries (embed q) es 0)).map (·.2)).take k

/-! ### Chat, modelled from the spec (section 4.6) -/

/-- A generation backend: context and question to generated text, or an
error (unreachable backend, API failure). -/
def GenBackend : Type := String → String → Except String String

/-- Modelled from the spec: a retrieved chunk formatted into the context
block — text plus source URL plus header breadcrumb. -/
def formatChunk (e : Entry) : String :=
  String.intercalate " > " e.chunk.header_path ++ ": " ++ e.chunk.text ++
    " [" ++ e.chunk.source_url ++ "]"

/-- Modelled from the spec: the bounded context block handed to the
generation backend. -/
def formatContext (es : List Entry) : String :=
  String.intercalate " --- " (es.map formatChunk)

/-- The fixed marker that opens every fallback response, making the fallback
recognisable from the text alone. -/
def fallbackMarker : String :=
  "[Automated answer - AI generation is temporarily unavailable] "

/-- Modelled from the spec (section 4.6): the deterministic templated fallback
response — states the limitation and echoes the top matching snippets. -/
def fallbackResponse (snippets : List String) : String :=
  fallbackMarker ++ ("The closest matching content from the knowledge base is: " ++
    String.intercalate " | " snippets)

/-- Whether a response text is the deterministic fallback, decided from the
content alone (the fixed marker prefix). -/
def isFallbackText (t : String) : Bool :=
  fallbackMarker.data.isPrefixOf t.data

/-- The chat result payload: the answer text and the internal fallback flag
(the spec requires the text itself, not the flag, to be distinguishing). -/
structure ChatResponse where
  text : String
  is_fallback : Bool
deriving Repr, DecidableEq

/-- Chat rejection: tenant not ready or AI disabled. -/
inductive ChatError where
  | notReady
deriving Repr, DecidableEq

/-- Modelled from the spec (sections 4.6 and 6, Chat): reject unless
`build_status = ready` and `ai_enabled`; otherwise retrieve the top-k chunks,
call the generation backend, and on any backend error recover locally with the
deterministic fallback — never surfacing the backend failure. -/
def chat (gen : GenBackend) (s : Sys) (tid : Nat) (q : String) (k : Nat) :
    Except ChatError ChatResponse :=
  let st := s.states tid
  if st.build_status = .ready ∧ st.ai_enabled = true then
    let ctx := retrieve (s.store tid) q k
    match gen (formatContext ctx) q with
    | .ok t => .ok { text := t, is_fallback := false }
    | .error _ => .ok { text := fallbackResponse (ctx.map (·.chunk.text)), is_fallback := true }
  else
    .error .notReady

/-! ### Orchestrator operations, modelled from the spec (sections 4.4-4.6, 5) -/

/-- Outputs of the system operations. -/
inductive Out where
  | ack
  | rejected (e : TriggerError)
  | results (es : List Entry)
  | done
deriving Repr, DecidableEq

/-- Whether an output is a synchronous rejection. -/
def isRejected : Out → Bool
  | .rejected _ => true
  | _ => false

/-- The observable operations on the system: the exposed interface calls
(trigger build, trigger re-scrape, disable, query/chat-time retrieval) and the
steps of the active background build task (namespace clear, batch upsert,
terminal success/failure, cooperative cancellation check). -/
inductive Op where
  | trigger (tid : Nat) (urls : List String) (now : Nat)
  | rescrape (tid : Nat) (urls : List String) (now : Nat)
  | clearNs (tid : Nat)
  | upsert (tid : Nat) (cs : List Chunk)
  | succeed (tid : Nat) (now : Nat)
  | fail (tid : Nat) (k : FailureKind)
  | cancelCheck (tid : Nat)
  | disable (tid : Nat)
  | query (tid : Nat) (q : String) (k : Nat)

/-- Replace one tenant's build state. -/
def setState (s : Sys) (tid : Nat) (st : TenantState) : Sys :=
  { s with states := fun t => if t = tid then st else s.states t }

/-- Replace one tenant's namespace contents. -/
def setStore (s : Sys) (tid : Nat) (es : List Entry) : Sys :=
  { s with store := fun t => if t = tid then es else s.store t }

/-- Modelled from the spec (section 4.5): the fresh progress record written on
entering `building`. -/
def initialProgress (now : Nat) : BuildProgress :=
  { step := .crawling
    current_url := none
    urls_total := 0
    urls_done := 0
    chunks_processed := 0
    documents_added := 0
    updated_at := now }

/-- Modelled from the spec (section 4.5): entering `building` — reset
progress, clear the previous error, reset the cancellation flag, register the
background task; a plain build also enables AI (`Initialize AI for company`). -/
def startBuild (s : Sys) (tid : Nat) (now : Nat) (enable : Bool) : Sys :=
  let st := s.states tid
  { setState s tid
      { st with
        ai_enabled := st.ai_enabled || enable
        build_status := .building
        error_message := none
        progress := some (initialProgress now)
        cancel_requested := false } with
    activeBuilds := tid :: s.activeBuilds }

/-- Modelled from the spec (sections 4.4-4.6, 5, 6, 7): one step of the
system.  Trigger and re-scrape validate synchronously (tenant exists, seed
URLs non-empty, status transition permitted) and return an acknowledgment;
build-task steps are guarded by `building`; the cancellation check is the
cooperative check between stages; disable clears `ai_enabled` and requests
cancellation without touching the namespace; query is read-only retrieval. -/
def applyOp (s : Sys) : Op → Sys × Out
  | .trigger tid urls now =>
    match s.tenants tid with
    | none => (s, .rejected .tenantNotFound)
    | some _ =>
      if urls.isEmpty then (s, .rejected .noSeedUrls)
      else
        match stepStatus (s.states tid).build_status .trigger with
        | some _ => (startBuild s tid now true, .ack)
        | none => (s, .rejected .invalidTransition)
  | .rescrape tid urls now =>
    match s.tenants tid with
    | none => (s, .rejected .tenantNotFound)
    | some _ =>
      if urls.isEmpty then (s, .rejected .noSeedUrls)
      else
        match stepStatus (s.states tid).build_status .rescrape with
        | some _ => (startBuild s tid now false, .ack)
        | none => (s, .rejected .invalidTransition)
  | .clearNs tid =>
    if (s.states tid).build_status = .building then (setStore s tid [], .done)
    else (s, .rejected .invalidTransition)
  | .upsert tid cs =>
    if (s.states tid).build_status = .building then
      (setStore s tid (s.store tid ++ cs.map (fun c => { ns := tid, chunk := c })), .done)
    else (s, .rejected .invalidTransition)
  | .succeed tid now =>
    match stepStatus (s.states tid).build_status .finishOk with
    | some st' =>
      ({ setState s tid
           { s.states tid with
             build_status := st'
             document_count := (s.store tid).length
             last_scraped_at := some now
             error_message := none
             progress := none } with
         activeBuilds := removeOne tid s.activeBuilds }, .done)
    | none => (s, .rejected .invalidTransition)
  | .fail tid k =>
    match stepStatus (s.states tid).build_status .finishFail with
    | some st' =>
      ({ setState s tid
           { s.states tid with
             build_status := st'
             error_message := some (describeFailure k)
             progress := none } with
         activeBuilds := removeOne tid s.activeBuilds }, .done)
    | none => (s, .rejected .invalidTransition)
  | .cancelCheck tid =>
    if (s.states tid).build_status = .building ∧ (s.states tid).cancel_requested = true then
      ({ setState s tid
           { s.states tid with
             build_status := .failed
             error_message := some (describeFailure .cancelled)
             progress := none } with
         activeBuilds := removeOne tid s.activeBuilds }, .done)
    else (s, .done)
  | .disable tid =>
    (setState s tid { s.states tid with ai_enabled := false, cancel_requested := true }, .done)
  | .query tid q k => (s, .results (retrieve (s.store tid) q k))

/-- Run a sequence of operations, discarding outputs. -/
def applyOps (s : Sys) : List Op → Sys
  | [] => s
  | op :: ops => applyOps (applyOp s op).1 ops

/-- The single-build-per-tenant invariant (spec sections 3 and 4.5): exactly
one background task owns a tenant while it is `building`, none otherwise. -/
def OneBuildInv (s : Sys) : Prop :=
  ∀ tid, countNat tid s.activeBuilds =
    if (s.states tid).build_status = .building then 1 else 0

/-- The namespace-isolation invariant (spec section 3, vector namespace):
every entry stored under a namespace key was upserted into that namespace. -/
def NsInv (s : Sys) : Prop :=
  ∀ ns e, e ∈ s.store ns → e.ns = ns

/-! ### Sample systems used by the witnesses -/

/-- A sample tenant record with one seed URL. -/
def sampleRecord : TenantRecord := { seed_urls := ["https://x.test/"] }

/-- A sample chunk. -/
def sampleChunk : Chunk :=
  { text := "Acme ships anvils worldwide."
    source_url := "https://x.test/about"
    header_path := ["About"]
    word_count := 4
    chunk_index := 0 }

/-- A system in which tenant 1 has an active build. -/
def sampleBuilding : Sys :=
  { tenants := fun t => if t = 1 then some sampleRecord else none
    states := fun t =>
      if t = 1 then
        { initialTenantState with
          ai_enabled := true
          build_status := .building
          progress := some (initialProgress 0) }
      else initialTenantState
    store := fun _ => []
    activeBuilds := [1] }

/-- A system in which tenant 1 is ready, enabled, and has one indexed chunk. -/
def sampleReady : Sys :=
  { tenants := fun t => if t = 1 then some sampleRecord else none
    states := fun t =>
      if t = 1 then
        { initialTenantState with
          ai_enabled := true
          build_status := .ready
          document_count := 1
          last_scraped_at := some 5 }
      else initialTenantState
    store := fun t => if t = 1 then [{ ns := 1, chunk := sampleChunk }] else []
    activeBuilds := [] }

/-- A generation backend that errors on every call. -/
def genDown : GenBackend := fun _ _ => .error "generation backend unreachable"

/-! ## Helper lemmas -/

theorem countNat_removeOne_self (a : Nat) (l : List Nat) :
    countNat a (removeOne a l) = countNat a l - 1 := by
  induction l with
  | nil => rfl
  | cons b l ih =>
    by_cases hb : b = a
    · subst hb; simp [removeOne, countNat]
    · simp [removeOne, countNat, hb, ih]

theorem countNat_removeOne_ne (t a : Nat) (l : List Nat) (h : t ≠ a) :
    countNat t (removeOne a l) = countNat t l := by
  induction l with
  | nil => rfl
  | cons b l ih =>
    by_cases hb : b = a
    · subst hb
      simp [removeOne, countNat, fun hba : b = t => h (hba ▸ rfl)]
      intro hba; exact absurd hba.symm h
    · simp [removeOne, countNat, hb, ih]

theorem stepStatus_trigger_elim (st st' : BuildStatus)
    (h : stepStatus st .trigger = some st') :
    (st = .not_started ∨ st = .failed) ∧ st' = .building := by
  cases st <;> simp_all [stepStatus]

theorem stepStatus_rescrape_elim (st st' : BuildStatus)
    (h : stepStatus st .rescrape = some st') :
    st = .ready ∧ st' = .building := by
  cases st <;> simp_all [stepStatus]

theorem stepStatus_finishOk_elim (st st' : BuildStatus)
    (h : stepStatus st .finishOk = some st') :
    st = .building ∧ st' = .ready := by
  cases st <;> simp_all [stepStatus]

theorem stepStatus_finishFail_elim (st st' : BuildStatus)
    (h : stepStatus st .finishFail = some st') :
    st = .building ∧ st' = .failed := by
  cases st <;> simp_all [stepStatus]

theorem mem_insertRanked (x y : Ranked) (l : List Ranked) :
    x ∈ insertRanked y l → x = y ∨ x ∈ l := by
  induction l with
  | nil => intro hx; simp [insertRanked] at hx; exact Or.inl hx
  | cons z zs ih =>
    intro hx
    by_cases hle : rankLE y z
    · simp [insertRanked, hle] at hx
      rcases hx with hx | hx | hx
      · exact Or.inl hx
      · exact Or.inr (by simp [hx])
      · exact Or.inr (by simp [hx])
    · simp [insertRanked, hle] at hx
      rcases hx with hx | hx
      · exact Or.inr (by simp [hx])
      · rcases ih hx with h1 | h1
        · exact Or.inl h1
        · exact Or.inr (by simp [h1])

theorem mem_sortRanked (x : Ranked) (l : List Ranked) :
    x ∈ sortRanked l → x ∈ l := by
  induction l with
  | nil => intro hx; simp [sortRanked] at hx
  | cons z zs ih =>
    intro hx
    rcases mem_insertRanked x z (sortRanked zs) hx with h1 | h1
    · simp [h1]
    · simp [ih h1]

theorem mem_rankEntries (qv : List Nat) (es : List Entry) (i : Nat) (x : Ranked) :
    x ∈ rankEntries qv es i → x.2 ∈ es := by
  induction es generalizing i with
  | nil => intro hx; simp [rankEntries] at hx
  | cons e es ih =>
    intro hx
    simp [rankEntries] at hx
    rcases hx with hx | hx
    · simp [hx]
    · simp [ih (i + 1) hx]

theorem mem_retrieve (es : List Entry) (q : String) (k : Nat) (e : Entry) :
    e ∈ retrieve es q k → e ∈ es := by
  intro he
  have h1 : e ∈ (sortRanked (rankEntries (embed q) es 0)).map (·.2) :=
    List.mem_of_mem_take he
  rcases List.mem_map.mp h1 with ⟨x, hx, hxe⟩
  have h2 := mem_sortRanked x _ hx
  have h3 := mem_rankEntries (embed q) es 0 x h2
  rw [← hxe]; exact h3

theorem oneBuildInv_startBuild (s : Sys) (tid now : Nat) (enable : Bool)
    (h : OneBuildInv s) (hnb : (s.states tid).build_status ≠ .building) :
    OneBuildInv (startBuild s tid now enable) := by
  intro t
  have ht0 := h t
  by_cases ht : t = tid
  · subst ht
    have h0 : countNat t s.activeBuilds = 0 := by rw [ht0, if_neg hnb]
    simp [startBuild, setState, countNat, h0]
  · have hne : tid ≠ t := fun hq => ht hq.symm
    simp [startBuild, setState, countNat, hne, ht, ht0]

theorem oneBuildInv_finish (s : Sys) (tid : Nat) (st : TenantState)
    (h : OneBuildInv s) (hb : (s.states tid).build_status = .building)
    (hst : st.build_status ≠ .building) :
    OneBuildInv { setState s tid st with activeBuilds := removeOne tid s.activeBuilds } := by
  intro t
  by_cases ht : t = tid
  · subst ht
    have h1 : countNat t s.activeBuilds = 1 := by rw [h t, if_pos hb]
    have := countNat_removeOne_self t s.activeBuilds
    rw [h1] at this
    simp [setState, this, hst]
  · have := countNat_removeOne_ne t tid s.activeBuilds ht
    simp [setState, ht, this, h t]

theorem oneBuildInv_applyOp (s : Sys) (h : OneBuildInv s) (op : Op) :
    OneBuildInv (applyOp s op).1 := by
  cases op with
  | trigger tid urls now =>
    cases htn : s.tenants tid with
    | none => simpa [applyOp, htn] using h
    | some r =>
      by_cases hu : urls.isEmpty
      · simpa [applyOp, htn, hu] using h
      · cases hss : stepStatus (s.states tid).build_status .trigger with
        | none => simpa [applyOp, htn, hu, hss] using h
        | some st' =>
          have helim := stepStatus_trigger_elim _ _ hss
          have hnb : (s.states tid).build_status ≠ .building := by
            rcases helim.1 with h1 | h1 <;> rw [h1] <;> intro hc <;> cases hc
          simpa [applyOp, htn, hu, hss] using
            oneBuildInv_startBuild s tid now true h hnb
  | rescrape tid urls now =>
    cases htn : s.tenants tid with
    | none => simpa [applyOp, htn] using h
    | some r =>
      by_cases hu : urls.isEmpty
      · simpa [applyOp, htn, hu] using h
      · cases hss : stepStatus (s.states tid).build_status .rescrape with
        | none => simpa [applyOp, htn, hu, hss] using h
        | some st' =>
          have helim := stepStatus_rescrape_elim _ _ hss
          have hnb : (s.states tid).build_status ≠ .building := by
            rw [helim.1]; intro hc; cases hc
          simpa [applyOp, htn, hu, hss] using
            oneBuildInv_startBuild s tid now false h hnb
  | clearNs tid =>
    by_cases hb : (s.states tid).build_status = .building
    · simpa [applyOp, hb, setStore] using h
    · simpa [applyOp, hb] using h
  | upsert tid cs =>
    by_cases hb : (s.states tid).build_status = .building
    · simpa [applyOp, hb, setStore] using h
    · simpa [applyOp, hb] using h
  | succeed tid now =>
    cases hss : stepStatus (s.states tid).build_status .finishOk with
    | none => simpa [applyOp, hss] using h
    | some st' =>
      have helim := stepStatus_finishOk_elim _ _ hss
      have hres := oneBuildInv_finish s tid
        { s.states tid with
          build_status := st'
          document_count := (s.store tid).length
          last_scraped_at := some now
          error_message := none
          progress := none }
        h helim.1 (by rw [helim.2]; intro hc; cases hc)
      simpa [applyOp, hss] using hres
  | fail tid k =>
    cases hss : stepStatus (s.states tid).build_status .finishFail with
    | none => simpa [applyOp, hss] using h
    | some st' =>
      have helim := stepStatus_finishFail_elim _ _ hss
      have hres := oneBuildInv_finish s tid
        { s.states tid with
          build_status := st'
          error_message := some (describeFailure k)
          progress := none }
        h helim.1 (by rw [helim.2]; intro hc; cases hc)
      simpa [applyOp, hss] using hres
  | cancelCheck tid =>
    by_cases hb : (s.states tid).build_status = .building ∧ (s.states tid).cancel_requested = true
    · have hres := oneBuildInv_finish s tid
        { s.states tid with
          build_status := .failed
          error_message := some (describeFailure .cancelled)
          progress := none }
        h hb.1 (by intro hc; cases hc)
      simpa [applyOp, hb] using hres
    · simpa [applyOp, hb] using h
  | disable tid =>
    intro t
    by_cases ht : t = tid
    · subst ht; simpa [applyOp, setState] using h t
    · simpa [applyOp, setState, ht] using h t
  | query tid q k => simpa [applyOp] using h

theorem nsInv_setState (s : Sys) (tid : Nat) (st : TenantState)
    (h : NsInv s) : NsInv (setState s tid st) := by
  intro ns e he
  exact h ns e he

theorem nsInv_startBuild (s : Sys) (tid now : Nat) (enable : Bool)
    (h : NsInv s) : NsInv (startBuild s tid now enable) := by
  intro ns e he
  exact h ns e he

theorem nsInv_applyOp (s : Sys) (h : NsInv s) (op : Op) :
    NsInv (applyOp s op).1 := by
  cases op with
  | trigger tid urls now =>
    cases htn : s.tenants tid with
    | none => simpa [applyOp, htn] using h
    | some r =>
      by_cases hu : urls.isEmpty
      · simpa [applyOp, htn, hu] using h
      · cases hss : stepStatus (s.states tid).build_status .trigger with
        | none => simpa [applyOp, htn, hu, hss] using h
        | some st' =>
          simpa [applyOp, htn, hu, hss] using nsInv_startBuild s tid now true h
  | rescrape tid urls now =>
    cases htn : s.tenants tid with
    | none => simpa [applyOp, htn] using h
    | some r =>
      by_cases hu : urls.isEmpty
      · simpa [applyOp, htn, hu] using h
      · cases hss : stepStatus (s.states tid).build_status .rescrape with
        | none => simpa [applyOp, htn, hu, hss] using h
        | some st' =>
          simpa [applyOp, htn, hu, hss] using nsInv_startBuild s tid now false h
  | clearNs tid =>
    by_cases hb : (s.states tid).build_status = .building
    · intro ns e he
      simp [applyOp, hb, setStore] at he
      by_cases hns : ns = tid
      · subst hns; simp at he
      · simp [hns] at he; exact h ns e he
    · simpa [applyOp, hb] using h
  | upsert tid cs =>
    by_cases hb : (s.states tid).build_status = .building
    · intro ns e he
      simp only [applyOp, hb, if_pos, setStore] at he
      by_cases hns : ns = tid
      · subst hns
        simp at he
        rcases he with he | he
        · exact h ns e he
        · rcases he with ⟨c, _, hc⟩
          rw [← hc]
      · simp [hns] at he; exact h ns e he
    · simpa [applyOp, hb] using h
  | succeed tid now =>
    cases hss : stepStatus (s.states tid).build_status .finishOk with
    | none => simpa [applyOp, hss] using h
    | some st' =>
      intro ns e he
      simp [applyOp, hss, setState] at he
      exact h ns e he
  | fail tid k =>
    cases hss : stepStatus (s.states tid).build_status .finishFail with
    | none => simpa [applyOp, hss] using h
    | some st' =>
      intro ns e he
      simp [applyOp, hss, setState] at he
      exact h ns e he
  | cancelCheck tid =>
    by_cases hb : (s.states tid).build_status = .building ∧ (s.states tid).cancel_requested = true
    · intro ns e he
      simp [applyOp, hb, setState] at he
      exact h ns e he
    · simpa [applyOp, hb] using h
  | disable tid =>
    intro ns e he
    simp [applyOp, setState] at he
    exact h ns e he
  | query tid q k => simpa [applyOp] using h

theorem nsInv_applyOps (s : Sys) (h : NsInv s) (ops : List Op) :
    NsInv (applyOps s ops) := by
  induction ops generalizing s with
  | nil => simpa [applyOps] using h
  | cons op ops ih =>
    simpa [applyOps] using ih (applyOp s op).1 (nsInv_applyOp s h op)

/-! ## Claim theorems -/

/-- C1: for every tenant at most one build is in `building` state at a time —
the one-task-per-tenant invariant (`OneBuildInv`) is preserved by every
operation and bounds the number of active build tasks of a tenant by one, a
build trigger issued while the tenant is already `building` is rejected
synchronously and changes nothing (so no second task is started), and the
frontend gate `canBuildAI` is `false` while the status is `building`. -/
theorem build_at_most_one_per_tenant (s : Sys) (hInv : OneBuildInv s) :
    (∀ op, OneBuildInv (applyOp s op).1) ∧
    (∀ tid, countNat tid s.activeBuilds ≤ 1) ∧
    (∀ tid urls now, (s.states tid).build_status = .building →
      (applyOp s (.trigger tid urls now)).1 = s ∧
      isRejected (applyOp s (.trigger tid urls now)).2 = true) ∧
    (∀ st b, st.ai_build_status = some "building" → canBuildAI (some st) b = false) := by
  refine ⟨fun op => oneBuildInv_applyOp s hInv op, ?_, ?_, ?_⟩
  · intro tid
    rw [hInv tid]
    split <;> simp
  · intro tid urls now hb
    have hnone : stepStatus (s.states tid).build_status .trigger = none := by
      rw [hb]; rfl
    cases htn : s.tenants tid with
    | none => exact ⟨by simp [applyOp, htn], by simp [applyOp, htn, isRejected]⟩
    | some r =>
      by_cases hu : urls.isEmpty
      · exact ⟨by simp [applyOp, htn, hu], by simp [applyOp, htn, hu, isRejected]⟩
      · exact ⟨by simp [applyOp, htn, hu, hnone], by simp [applyOp, htn, hu, hnone, isRejected]⟩
  · intro st b hst
    simp [canBuildAI, statusIs, hst]

/-- Witness for C1 at the concrete system `sampleBuilding`. -/
theorem build_at_most_one_per_tenant_witness :
    OneBuildInv sampleBuilding ∧
    ((applyOp sampleBuilding (.trigger 1 ["https://x.test/"] 3)).1 = sampleBuilding ∧
      isRejected (applyOp sampleBuilding (.trigger 1 ["https://x.test/"] 3)).2 = true) := by
  have hInv : OneBuildInv sampleBuilding := by
    intro tid
    by_cases h1 : tid = 1
    · subst h1; rfl
    · have h2 : ¬(1 : Nat) = tid := fun h => h1 h.symm
      simp [sampleBuilding, countNat, h1, h2, initialTenantState]
  exact ⟨hInv, (build_at_most_one_per_tenant sampleBuilding hInv).2.2.1 1
    ["https://x.test/"] 3 (by rfl)⟩

/-- C2: the status state machine admits exactly the transitions
`not_started -> building`, `building -> ready`, `building -> failed`,
`ready -> building` (re-scrape) and `failed -> building` (retry); re-scrape is
permitted only from `ready`; every rejected request leaves the system state
unchanged; and the frontend only offers re-scrape when the status is
`ready`. -/
theorem status_state_machine :
    (∀ st st' : BuildStatus,
      ((stepStatus st .trigger = some st' ∨ stepStatus st .rescrape = some st' ∨
        stepStatus st .finishOk = some st' ∨ stepStatus st .finishFail = some st') ↔
       ((st = .not_started ∧ st' = .building) ∨
        (st = .building ∧ st' = .ready) ∨
        (st = .building ∧ st' = .failed) ∨
        (st = .ready ∧ st' = .building) ∨
        (st = .failed ∧ st' = .building)))) ∧
    (∀ st : BuildStatus, (∃ st', stepStatus st .rescrape = some st') ↔ st = .ready) ∧
    (∀ s tid urls now, stepStatus (s.states tid).build_status .trigger = none →
      (applyOp s (.trigger tid urls now)).1 = s) ∧
    (∀ s tid urls now, stepStatus (s.states tid).build_status .rescrape = none →
      (applyOp s (.rescrape tid urls now)).1 = s) ∧
    (∀ s tid now, stepStatus (s.states tid).build_status .finishOk = none →
      (applyOp s (.succeed tid now)).1 = s) ∧
    (∀ s tid k, stepStatus (s.states tid).build_status .finishFail = none →
      (applyOp s (.fail tid k)).1 = s) ∧
    (∀ os b, canScrapeWebsite os b = true → statusIs os "ready" = true) := by
  refine ⟨?_, ?_, ?_, ?_, ?_, ?_, ?_⟩
  · intro st st'; cases st <;> cases st' <;> simp [stepStatus]
  · intro st; cases st <;> simp [stepStatus]
  · intro s tid urls now h
    cases htn : s.tenants tid with
    | none => simp [applyOp, htn]
    | some r =>
      by_cases hu : urls.isEmpty
      · simp [applyOp, htn, hu]
      · simp [applyOp, htn, hu, h]
  · intro s tid urls now h
    cases htn : s.tenants tid with
    | none => simp [applyOp, htn]
    | some r =>
      by_cases hu : urls.isEmpty
      · simp [applyOp, htn, hu]
      · simp [applyOp, htn, hu, h]
  · intro s tid now h; simp [applyOp, h]
  · intro s tid k h; simp [applyOp, h]
  · intro os b h
    exact (Bool.and_eq_true _ _ |>.mp h).1

/-- Witness for C2: a rejected trigger on a `ready` tenant leaves the system
unchanged. -/
theorem status_state_machine_witness :
    stepStatus (sampleReady.states 1).build_status .trigger = none ∧
    (applyOp sampleReady (.trigger 1 ["https://x.test/"] 7)).1 = sampleReady :=
  ⟨rfl, status_state_machine.2.2.1 sampleReady 1 ["https://x.test/"] 7 rfl⟩

/-- C3: a build that completes successfully leaves the tenant `ready` with
`document_count` equal to the number of chunks indexed by that build (the
entries then in its namespace), `last_scraped_at` set to the completion time,
and the progress record cleared; a canonical full pipeline run
(trigger, namespace clear, batch upsert, success) indexes exactly the upserted
chunks; and the frontend renders the `ready` description from
`document_count`. -/
theorem build_success_final_state
    (s : Sys) (tid now : Nat) (hb : (s.states tid).build_status = .building) :
    ((applyOp s (.succeed tid now)).1.states tid).build_status = .ready ∧
    ((applyOp s (.succeed tid now)).1.states tid).document_count = (s.store tid).length ∧
    ((applyOp s (.succeed tid now)).1.states tid).last_scraped_at = some now ∧
    ((applyOp s (.succeed tid now)).1.states tid).progress = none ∧
    (∀ s0 : Sys, ∀ tid' urls n1 n2, ∀ cs : List Chunk, ∀ r,
      s0.tenants tid' = some r → urls.isEmpty = false →
      stepStatus (s0.states tid').build_status .trigger = some .building →
      ((applyOps s0 [.trigger tid' urls n1, .clearNs tid', .upsert tid' cs,
          .succeed tid' n2]).states tid').build_status = .ready ∧
      ((applyOps s0 [.trigger tid' urls n1, .clearNs tid', .upsert tid' cs,
          .succeed tid' n2]).states tid').document_count = cs.length ∧
      ((applyOps s0 [.trigger tid' urls n1, .clearNs tid', .upsert tid' cs,
          .succeed tid' n2]).states tid').last_scraped_at = some n2 ∧
      ((applyOps s0 [.trigger tid' urls n1, .clearNs tid', .upsert tid' cs,
          .succeed tid' n2]).states tid').progress = none) ∧
    (∀ st : AIStatus, st.ai_build_status = some "ready" →
      getStatusDescription (some st) =
        "AI is ready and has " ++ toString st.document_count ++
          " documents in its knowledge base.") := by
  have hss : stepStatus (s.states tid).build_status .finishOk = some .ready := by
    rw [hb]; rfl
  refine ⟨?_, ?_, ?_, ?_, ?_, ?_⟩
  · simp [applyOp, hss, setState]
  · simp [applyOp, hss, setState]
  · simp [applyOp, hss, setState]
  · simp [applyOp, hss, setState]
  · intro s0 tid' urls n1 n2 cs r hr hu hs0
    have e1 : applyOp s0 (.trigger tid' urls n1) = (startBuild s0 tid' n1 true, .ack) := by
      simp [applyOp, hr, hu, hs0]
    have hb1 : ((startBuild s0 tid' n1 true).states tid').build_status = .building := by
      simp [startBuild, setState]
    have e2 : applyOp (startBuild s0 tid' n1 true) (.clearNs tid') =
        (setStore (startBuild s0 tid' n1 true) tid' [], .done) := by
      simp [applyOp, hb1]
    have hb2 : ((setStore (startBuild s0 tid' n1 true) tid' []).states tid').build_status
        = .building := hb1
    have hst2 : (setStore (startBuild s0 tid' n1 true) tid' []).store tid' = [] := by
      simp [setStore]
    have e3 : applyOp (setStore (startBuild s0 tid' n1 true) tid' []) (.upsert tid' cs) =
        (setStore (setStore (startBuild s0 tid' n1 true) tid' [])
          tid' ((setStore (startBuild s0 tid' n1 true) tid' []).store tid' ++
            cs.map (fun c => { ns := tid', chunk := c })), .done) := by
      simp [applyOp, hb2]
    rw [hst2] at e3
    have hb3 : ((setStore (setStore (startBuild s0 tid' n1 true) tid' []) tid'
        ([] ++ cs.map (fun c => { ns := tid', chunk := c }))).states tid').build_status
        = .building := hb1
    have hrun : applyOps s0 [.trigger tid' urls n1, .clearNs tid', .upsert tid' cs,
        .succeed tid' n2] =
        (applyOp (setStore (setStore (startBuild s0 tid' n1 true) tid' []) tid'
          ([] ++ cs.map (fun c => { ns := tid', chunk := c }))) (.succeed tid' n2)).1 := by
      simp only [applyOps, e1, e2, e3]
    rw [hrun]
    simp [applyOp, startBuild, setState, setStore, stepStatus]
  · intro st hst
    simp [getStatusDescription, hst]

/-- Witness for C3 at the concrete system `sampleBuilding`. -/
theorem build_success_final_state_witness :
    (sampleBuilding.states 1).build_status = .building ∧
    ((applyOp sampleBuilding (.succeed 1 9)).1.states 1).build_status = .ready :=
  ⟨rfl, (build_success_final_state sampleBuilding 1 9 rfl).1⟩

/-- C4: a fatal stage failure (any `FailureKind`, including exhausted
embedding-batch retries) leaves the tenant `failed` with the non-empty
user-safe description of the failure as `error_message` and cleared progress,
and performs no write to any vector namespace: the whole store is exactly as
it was at the moment of failure. -/
theorem build_failure_final_state (s : Sys) (tid : Nat) (k : FailureKind)
    (hb : (s.states tid).build_status = .building) :
    ((applyOp s (.fail tid k)).1.states tid).build_status = .failed ∧
    ((applyOp s (.fail tid k)).1.states tid).error_message = some (describeFailure k) ∧
    describeFailure k ≠ "" ∧
    ((applyOp s (.fail tid k)).1.states tid).progress = none ∧
    (applyOp s (.fail tid k)).1.store = s.store := by
  have hss : stepStatus (s.states tid).build_status .finishFail = some .failed := by
    rw [hb]; rfl
  refine ⟨?_, ?_, ?_, ?_, ?_⟩
  · simp [applyOp, hss, setState]
  · simp [applyOp, hss, setState]
  · cases k <;> decide
  · simp [applyOp, hss, setState]
  · simp [applyOp, hss, setState]

/-- Witness for C4 at the concrete system `sampleBuilding`. -/
theorem build_failure_final_state_witness :
    (sampleBuilding.states 1).build_status = .building ∧
    ((applyOp sampleBuilding (.fail 1 .embeddingRetriesExhausted)).1.states 1).build_status
      = .failed :=
  ⟨rfl, (build_failure_final_state sampleBuilding 1 .embeddingRetriesExhausted rfl).1⟩

theorem isPrefixOf_append_self (l r : List Char) : l.isPrefixOf (l ++ r) = true := by
  induction l with
  | nil => simp [List.isPrefixOf]
  | cons c cs ih => simp [List.isPrefixOf, ih]

theorem isFallbackText_fallbackResponse (snips : List String) :
    isFallbackText (fallbackResponse snips) = true := by
  rw [isFallbackText, fallbackResponse, String.data_append]
  exact isPrefixOf_append_self _ _

/-- C5: for a tenant that is `ready` with AI enabled, if the generation
backend errors on every call, the chat operation still returns a successful
response whose text is the deterministic fallback, recognisable as a fallback
from the text alone (the fixed marker prefix); a working backend's answer is
returned verbatim, so an answer without the marker is never the fallback
text; the backend error is never propagated. -/
theorem chat_fallback_on_backend_failure (gen : GenBackend) (s : Sys) (tid : Nat)
    (q : String) (k : Nat)
    (hready : (s.states tid).build_status = .ready)
    (hen : (s.states tid).ai_enabled = true)
    (hfail : ∀ ctx question, ∃ msg, gen ctx question = .error msg) :
    chat gen s tid q k =
      .ok { text := fallbackResponse ((retrieve (s.store tid) q k).map (·.chunk.text))
            is_fallback := true } ∧
    isFallbackText
      (fallbackResponse ((retrieve (s.store tid) q k).map (·.chunk.text))) = true ∧
    (∀ gen' : GenBackend, ∀ t, (∀ ctx question, gen' ctx question = .ok t) →
      chat gen' s tid q k = .ok { text := t, is_fallback := false }) ∧
    (∀ t, isFallbackText t = false →
      t ≠ fallbackResponse ((retrieve (s.store tid) q k).map (·.chunk.text))) := by
  refine ⟨?_, isFallbackText_fallbackResponse _, ?_, ?_⟩
  · obtain ⟨msg, hmsg⟩ := hfail (formatContext (retrieve (s.store tid) q k)) q
    simp [chat, hready, hen, hmsg]
  · intro gen' t hgen
    simp [chat, hready, hen, hgen (formatContext (retrieve (s.store tid) q k)) q]
  · intro t hft heq
    rw [heq, isFallbackText_fallbackResponse] at hft
    cases hft

/-- Witness for C5 at the concrete ready system `sampleReady` with the
always-failing backend `genDown`. -/
theorem chat_fallback_on_backend_failure_witness :
    (sampleReady.states 1).build_status = .ready ∧
    (sampleReady.states 1).ai_enabled = true ∧
    chat genDown sampleReady 1 "anvils" 5 =
      .ok { text := fallbackResponse
              ((retrieve (sampleReady.store 1) "anvils" 5).map (·.chunk.text))
            is_fallback := true } :=
  ⟨rfl, rfl,
    (chat_fallback_on_backend_failure genDown sampleReady 1 "anvils" 5 rfl rfl
      (fun _ _ => ⟨"generation backend unreachable", rfl⟩)).1⟩

/-- C6: namespace isolation — starting from any system satisfying the
provenance invariant, after any sequence of operations (builds, rebuilds,
disables, queries) every chunk returned by a query against tenant B's
namespace was indexed into B's namespace, never into a distinct tenant A's. -/
theorem namespace_isolation (s : Sys) (hs : NsInv s) (ops : List Op) (A B : Nat)
    (hAB : A ≠ B) (q : String) (k : Nat) :
    NsInv (applyOps s ops) ∧
    ∀ e ∈ retrieve ((applyOps s ops).store B) q k, e.ns = B ∧ e.ns ≠ A := by
  have hinv := nsInv_applyOps s hs ops
  refine ⟨hinv, ?_⟩
  intro e he
  have hB := hinv B e (mem_retrieve _ _ _ _ he)
  exact ⟨hB, by rw [hB]; exact fun h => hAB h.symm⟩

/-- Witness for C6: a concrete build for tenant 1 on top of `sampleBuilding`,
queried as tenant 1 against absent tenant 2. -/
theorem namespace_isolation_witness :
    NsInv sampleBuilding ∧
    ∀ e ∈ retrieve ((applyOps sampleBuilding
        [.upsert 1 [sampleChunk], .succeed 1 4]).store 1) "anvils" 3,
      e.ns = 1 ∧ e.ns ≠ 2 := by
  have h0 : NsInv sampleBuilding := by
    intro ns e he
    simp [sampleBuilding] at he
  exact ⟨h0, (namespace_isolation sampleBuilding h0
    [.upsert 1 [sampleChunk], .succeed 1 4] 2 1 (by decide) "anvils" 3).2⟩

/-- C7: retrieval is deterministic and read-only — a query mutates nothing,
and issuing the same query twice in immediate succession (no index mutation
in between) yields the same ordered result list, namely the pure retrieval
over the tenant's namespace. -/
theorem retrieval_deterministic (s : Sys) (tid : Nat) (q : String) (k : Nat) :
    (applyOp s (.query tid q k)).1 = s ∧
    (applyOp (applyOp s (.query tid q k)).1 (.query tid q k)).2 =
      (applyOp s (.query tid q k)).2 ∧
    (applyOp s (.query tid q k)).2 = .results (retrieve (s.store tid) q k) :=
  ⟨rfl, rfl, rfl⟩

/-- C8: disable clears `ai_enabled`, requests cancellation, touches no
namespace (the whole store is unchanged) and no build status by itself; and a
tenant disabled while `building` is moved to the terminal `failed` status by
the next cooperative cancellation check, still without touching the store. -/
theorem disable_semantics (s : Sys) (tid : Nat) :
    ((applyOp s (.disable tid)).1.states tid).ai_enabled = false ∧
    ((applyOp s (.disable tid)).1.states tid).cancel_requested = true ∧
    (applyOp s (.disable tid)).1.store = s.store ∧
    (∀ t, ((applyOp s (.disable tid)).1.states t).build_status =
      (s.states t).build_status) ∧
    ((s.states tid).build_status = .building →
      ((applyOp (applyOp s (.disable tid)).1 (.cancelCheck tid)).1.states tid).build_status
          = .failed ∧
      (applyOp (applyOp s (.disable tid)).1 (.cancelCheck tid)).1.store = s.store) := by
  refine ⟨by simp [applyOp, setState], by simp [applyOp, setState], rfl, ?_, ?_⟩
  · intro t
    by_cases ht : t = tid
    · subst ht; simp [applyOp, setState]
    · simp [applyOp, setState, ht]
  · intro hb
    constructor
    · simp [applyOp, setState, hb]
    · simp [applyOp, setState, hb]

/-- Witness for C8 at the concrete system `sampleBuilding`. -/
theorem disable_semantics_witness :
    (sampleBuilding.states 1).build_status = .building ∧
    ((applyOp (applyOp sampleBuilding (.disable 1)).1 (.cancelCheck 1)).1.states 1).build_status
      = .failed :=
  ⟨rfl, ((disable_semantics sampleBuilding 1).2.2.2.2 rfl).1⟩

/-- C9: a build trigger with a configuration error — tenant not found or no
seed URLs — is rejected synchronously: the call returns a rejection, the
system state (in particular the set of background tasks and the tenant's
build state) is unchanged. -/
theorem trigger_config_errors_rejected (s : Sys) (tid : Nat) (urls : List String)
    (now : Nat) (h : s.tenants tid = none ∨ urls = []) :
    (applyOp s (.trigger tid urls now)).1 = s ∧
    isRejected (applyOp s (.trigger tid urls now)).2 = true ∧
    (applyOp s (.trigger tid urls now)).1.activeBuilds = s.activeBuilds ∧
    (applyOp s (.trigger tid urls now)).1.states tid = s.states tid := by
  rcases h with h | h
  · exact ⟨by simp [applyOp, h], by simp [applyOp, h, isRejected],
      by simp [applyOp, h], by simp [applyOp, h]⟩
  · subst h
    cases htn : s.tenants tid with
    | none =>
      exact ⟨by simp [applyOp, htn], by simp [applyOp, htn, isRejected],
        by simp [applyOp, htn], by simp [applyOp, htn]⟩
    | some r =>
      exact ⟨by simp [applyOp, htn], by simp [applyOp, htn, isRejected],
        by simp [applyOp, htn], by simp [applyOp, htn]⟩

/-- Witness for C9: triggering a build for an unknown tenant of the empty
system. -/
theorem trigger_config_errors_rejected_witness :
    (initSys.tenants 5 = none ∨ (["https://x.test/"] : List String) = []) ∧
    (applyOp initSys (.trigger 5 ["https://x.test/"] 0)).1 = initSys :=
  ⟨Or.inl rfl,
    (trigger_config_errors_rejected initSys 5 ["https://x.test/"] 0 (Or.inl rfl)).1⟩

/-- C10 counterexample: `formatApiError`, as claimed, is refuted at explicit
inputs — it throws a `TypeError` on `null` input and on a FastAPI detail array
containing a `null` element, and it returns the empty string (not a non-empty
string) for an empty detail array (`[]` is truthy in JavaScript and
`[].join(', ')` is `''`). -/
theorem formatApiError_not_total_counterexample :
    formatApiError .vnull = .error .typeError ∧
    formatApiError (mkDetail (.varr [])) = .ok (.vstr "") ∧
    formatApiError (mkDetail (.varr [.vnull])) = .error .typeError :=
  ⟨rfl, rfl, rfl⟩

/-- C10 (amended): `formatApiError` follows the claimed case analysis under
JavaScript truthiness, but is not total and not always non-empty: it returns
the `', '`-joined `msg` fields when the FastAPI detail is an array whose
elements survive the `err.msg` reads (possibly the empty string), the detail
when it is a non-empty string, the response data when it is a non-empty
string, `error.message` (any truthy value, as-is) when present, and the fixed
fallback otherwise — including for non-object inputs such as plain strings —
while it throws a `TypeError` on `null`/`undefined` input. -/
theorem formatApiError_behavior :
    (∀ xs msgs, mapMsg xs = .ok msgs →
      formatApiError (mkDetail (.varr xs)) = .ok (.vstr (jsJoin ", " msgs))) ∧
    (∀ s : String, s ≠ "" → formatApiError (mkDetail (.vstr s)) = .ok (.vstr s)) ∧
    (∀ s : String, s ≠ "" → formatApiError (mkRespData (.vstr s)) = .ok (.vstr s)) ∧
    (∀ m : JSValue, truthy m = true →
      formatApiError (.vobj [("message", m)]) = .ok m) ∧
    formatApiError (.vobj []) = .ok (.vstr unexpectedErrorMsg) ∧
    (∀ s : String, formatApiError (.vstr s) = .ok (.vstr unexpectedErrorMsg)) ∧
    formatApiError .vnull = .error .typeError ∧
    formatApiError .vundefined = .error .typeError := by
  refine ⟨?_, ?_, ?_, ?_, rfl, ?_, rfl, rfl⟩
  · intro xs msgs h
    simp [formatApiError, mkDetail, mkRespData, member, optMember, getOwn,
      truthy, isArray, asArray, h]
  · intro s h
    simp [formatApiError, mkDetail, mkRespData, member, optMember, getOwn,
      truthy, isArray, isString, h]
  · intro s h
    simp [formatApiError, mkRespData, member, optMember, getOwn,
      truthy, isArray, isString, h]
  · intro m h
    have hv : truthy JSValue.vundefined = false := rfl
    simp [formatApiError, formatApiErrorTail, member, optMember, getOwn, hv, h]
  · intro s
    rfl

/-- Witness for the amended C10: a concrete non-empty string detail is
returned unchanged. -/
theorem formatApiError_behavior_witness :
    ("boom" : String) ≠ "" ∧
    formatApiError (mkDetail (.vstr "boom")) = .ok (.vstr "boom") :=
  ⟨by decide, formatApiError_behavior.2.1 "boom" (by decide)⟩
